import Mathlib

/-!
Shallow embedding of the ttwa repository: the CDK deployment stack
(`src/ttwa/deployment.py`) and the Flask health service (`docker/app.py`).

Definitions mirror the source; theorems settle the frozen claims.
-/

namespace Ttwa

/-- Python truthiness on an optional string context value:
`if not x` is true when the value is absent (`None`) or the empty string. -/
def pyFalsy : Option String → Bool
  | none => true
  | some s => s.isEmpty

/-- Python substring test `pat in s` (`"does not exist" in error_msg`). -/
def pyIn (pat s : String) : Bool :=
  decide (pat.toList <:+: s.toList)

/-! ## Data model of the resource graph (from deployment.py) -/

/-- `aws_cdk.RemovalPolicy` values used by the stack. -/
inductive RemovalPolicy where
  | DESTROY
  | RETAIN
deriving DecidableEq, Repr

/-- `ec2.SubnetType` values used by the stack. -/
inductive SubnetType where
  | PUBLIC
  | PRIVATE_WITH_EGRESS
  | PRIVATE_ISOLATED
deriving DecidableEq, Repr

/-- One entry of the `subnet_configuration` list of `ec2.Vpc`. -/
structure SubnetConfiguration where
  name : String
  subnet_type : SubnetType
  cidr_mask : Nat
deriving DecidableEq, Repr

/-- The `ec2.Vpc` construct: each subnet configuration produces one subnet
per availability zone. -/
structure Vpc where
  max_azs : Nat
  nat_gateways : Nat
  subnet_configuration : List SubnetConfiguration
  flow_logs_enabled : Bool
deriving DecidableEq, Repr

/-- Total number of subnets the VPC produces: one subnet per configuration
entry per availability zone. -/
def Vpc.subnetCount (v : Vpc) : Nat :=
  v.max_azs * v.subnet_configuration.length

/-- Number of subnet-configuration entries of a given subnet type. -/
def Vpc.tierCount (v : Vpc) (t : SubnetType) : Nat :=
  (v.subnet_configuration.filter (fun c => c.subnet_type = t)).length

/-- The three security-group objects created by the stack; ingress rules
reference these objects (not their names). -/
inductive SgRef where
  | app
  | lb
  | db
deriving DecidableEq, Repr

/-- An ingress-rule source: `ec2.Peer.any_ipv4()` or another security
group passed by reference. -/
inductive Peer where
  | anyIpv4
  | sgRef (g : SgRef)
deriving DecidableEq, Repr

/-- One `add_ingress_rule` call: the group receiving the rule, the source
peer, the TCP port and the description string. -/
structure IngressRule where
  target : SgRef
  source : Peer
  port : Nat
  description : String
deriving DecidableEq, Repr

/-- The `kms.Key` construct created at the top of the stack. -/
structure KmsKey where
  name : String
  enable_key_rotation : Bool
  removal_policy : RemovalPolicy
deriving DecidableEq, Repr

/-- How the database cluster receives its credentials:
`rds.Credentials.from_secret` of a secret looked up by name, or a literal
username/password pair (never used by the source). -/
inductive Credentials where
  | fromSecret (secret_name : String)
  | fromPlaintext (username password : String)
deriving DecidableEq, Repr

/-- One rule of the `wafv2.CfnWebACL` rule list. -/
structure WafRule where
  name : String
  priority : Nat
  is_rate_limit : Bool
deriving DecidableEq, Repr

/-- A `CfnOutput` export. -/
structure StackOutput where
  name : String
  description : String
deriving DecidableEq, Repr

/-- The resource graph built by `HelloWorldStack.__init__`, restricted to
the attributes the claims are about. -/
structure HelloWorldStack where
  env_name : String
  hosted_zone_id : String
  certificate_domain : String
  encryption_key : KmsKey
  vpc : Vpc
  ingress_rules : List IngressRule
  aurora_credentials : Credentials
  aurora_instances : Nat
  aurora_removal_policy : RemovalPolicy
  aurora_deletion_protection : Bool
  aurora_storage_encrypted : Bool
  aurora_storage_encryption_key : Option KmsKey
  desired_count : Nat
  container_port : Nat
  waf_rules : List WafRule
  outputs : List StackOutput
deriving Repr

/-- Embedding of `HelloWorldStack.__init__` (deployment.py lines 29-376):
builds the resource graph for one environment. Field values are
transcribed from the source. -/
def helloWorldStack (hosted_zone_name : String) (hosted_zone_id : String)
    (env_name : String) : HelloWorldStack :=
  let encryption_key : KmsKey :=
    { name := env_name ++ "-kms-key"
      enable_key_rotation := true
      removal_policy := RemovalPolicy.DESTROY }
  { env_name := env_name
    hosted_zone_id := hosted_zone_id
    certificate_domain := env_name ++ "." ++ hosted_zone_name
    encryption_key := encryption_key
    vpc :=
      { max_azs := 3
        nat_gateways := 3
        subnet_configuration :=
          [ { name := "public", subnet_type := SubnetType.PUBLIC, cidr_mask := 24 }
          , { name := "private-app", subnet_type := SubnetType.PRIVATE_WITH_EGRESS, cidr_mask := 24 }
          , { name := "private-db", subnet_type := SubnetType.PRIVATE_ISOLATED, cidr_mask := 24 } ]
        flow_logs_enabled := true }
    ingress_rules :=
      [ { target := SgRef.lb, source := Peer.anyIpv4, port := 80
          description := "Allow HTTP traffic from anywhere" }
      , { target := SgRef.lb, source := Peer.anyIpv4, port := 443
          description := "Allow HTTPS traffic from anywhere" }
      , { target := SgRef.app, source := Peer.sgRef SgRef.lb, port := 5000
          description := "Allow HTTP traffic from load balancer" }
      , { target := SgRef.db, source := Peer.sgRef SgRef.app, port := 5432
          description := "Allow MySQL traffic from application" } ]
    aurora_credentials := Credentials.fromSecret (env_name ++ "-aurora-credentials")
    aurora_instances := 9
    aurora_removal_policy := RemovalPolicy.DESTROY
    aurora_deletion_protection := false
    aurora_storage_encrypted := true
    aurora_storage_encryption_key := some encryption_key
    desired_count := 9
    container_port := 5000
    waf_rules :=
      [ { name := "AWS-AWSManagedRulesCommonRuleSet", priority := 1, is_rate_limit := false }
      , { name := "AWS-AWSManagedRulesKnownBadInputsRuleSet", priority := 2, is_rate_limit := false }
      , { name := "RateLimit", priority := 3, is_rate_limit := true } ]
    outputs :=
      [ { name := "LoadBalancerDNS", description := "The DNS name of the load balancer" }
      , { name := "RecordDomainName", description := "The fully qualified domain name of the A record" }
      , { name := "DBEndpoint", description := "The endpoint of the database" }
      , { name := "DBReadEndpoint", description := "The read endpoint of the database" }
      , { name := "EnvName", description := "The environment name" } ] }

/-! ## The application entry point (`HelloWorldApp.__init__`) -/

/-- The CDK context variables read by `HelloWorldApp.__init__` via
`try_get_context`; absent variables yield `None`. -/
structure Context where
  hosted_zone_id : Option String
  hosted_zone_name : Option String
  env_name : Option String

/-- Outcome of one synthesis invocation: abort with an uncaught Python
exception, or a synthesized stack together with the warnings emitted. -/
inductive SynthOutcome where
  | aborted (error : String)
  | synthesized (stack : HelloWorldStack) (warnings : List String)

/-- Embedding of `HelloWorldApp.__init__` (deployment.py lines 379-400).
The two missing-required-parameter branches raise `ValueError` before the
stack is instantiated. In the missing-`env_name` branch the source
evaluates `Annotations.of(self)`, but the name `Annotations` is not bound
by the module imports (deployment.py lines 1-27), so that branch raises
`NameError` at runtime instead of emitting the intended warning; the
invocation aborts before the stack is instantiated. -/
def helloWorldApp (ctx : Context) : SynthOutcome :=
  if pyFalsy ctx.hosted_zone_id then
    SynthOutcome.aborted
      "ValueError: Missing required context variable: hosted_zone_id. Please provide it in cdk.json or via --context."
  else if pyFalsy ctx.hosted_zone_name then
    SynthOutcome.aborted
      "ValueError: Missing required context variable: hosted_zone_name. Please provide it in cdk.json or via --context."
  else if pyFalsy ctx.env_name then
    SynthOutcome.aborted "NameError: name Annotations is not defined"
  else
    SynthOutcome.synthesized
      (helloWorldStack (ctx.hosted_zone_name.getD "") (ctx.hosted_zone_id.getD "")
        (ctx.env_name.getD ""))
      []

/-! ## The health service (`docker/app.py`) -/

/-- Outcomes of the fallible external calls made by `docker/app.py`: one
field per call site, with an exception modelled as `Except.error` carrying
the exception message. -/
structure PgWorld where
  /-- `boto3 get_secret_value` + JSON parse inside `get_db_credentials`. -/
  get_secret_value : Except String (String × String)
  /-- `psycopg2.connect(..., database="postgres")`. -/
  connect_postgres : Except String Unit
  /-- `SELECT 1 FROM pg_database WHERE datname = flaskdb`: row found? -/
  flaskdb_row : Except String Bool
  /-- `CREATE DATABASE flaskdb`. -/
  create_flaskdb : Except String Unit
  /-- `psycopg2.connect(..., database="flaskdb")`. -/
  connect_flaskdb : Except String Unit
  /-- `CREATE TABLE IF NOT EXISTS user ...`. -/
  create_user_table : Except String Unit

/-- Embedding of `get_db_credentials` (app.py lines 16-23): fetches the
secret and returns the username/password pair; any exception propagates. -/
def get_db_credentials (w : PgWorld) : Except String (String × String) :=
  w.get_secret_value

/-- The body of the `try` block of `create_database_if_not_exists`
(app.py lines 30-77): connect to the default database, create `flaskdb`
when absent, connect to it and create the `user` table, returning `True`. -/
def createDatabaseTryBody (w : PgWorld) : Except String Bool := do
  let _ ← w.connect_postgres
  let found ← w.flaskdb_row
  if !found then
    let _ ← w.create_flaskdb
  let _ ← w.connect_flaskdb
  let _ ← w.create_user_table
  pure true

/-- Embedding of `create_database_if_not_exists` (app.py lines 25-82):
`get_db_credentials` is called before the `try` block, so its exceptions
propagate; every exception raised inside the `try` block is caught, logged
and turned into the return value `False`. -/
def create_database_if_not_exists (w : PgWorld) : Except String Bool :=
  match get_db_credentials w with
  | Except.error e => Except.error e
  | Except.ok _ =>
    match createDatabaseTryBody w with
    | Except.ok b => Except.ok b
    | Except.error _ => Except.ok false

/-- An HTTP response: status code and JSON-object body as a key/value list. -/
structure HttpResponse where
  status : Nat
  body : List (String × String)
deriving DecidableEq, Repr

/-- Embedding of the readiness endpoint `health_check` (app.py lines
110-129). `db_check` is the outcome of `db.session.execute(SELECT 1)`. -/
def health_check (db_check : Except String Unit) (w : PgWorld) : HttpResponse :=
  match db_check with
  | Except.ok _ =>
    { status := 200, body := [("status", "healthy"), ("database", "connected")] }
  | Except.error error_msg =>
    if pyIn "does not exist" error_msg then
      match create_database_if_not_exists w with
      | Except.ok true =>
        { status := 200
          body := [("status", "initializing"), ("message", "Database created, restarting connection")] }
      | _ => { status := 503, body := [("status", "unhealthy"), ("error", error_msg)] }
    else
      { status := 503, body := [("status", "unhealthy"), ("error", error_msg)] }

/-! ## Claims -/

/-- C1: the claim says a synthesis invocation with `env_name` absent (and
both hosted-zone variables present) proceeds with the identifier `dev` and
a non-fatal warning. On the code it does not: the warning line evaluates
`Annotations.of(self)` but `Annotations` is not among the module imports,
so the invocation aborts with a `NameError` before any stack is built. -/
theorem c1_missing_env_name_aborts_with_name_error :
    helloWorldApp
      { hosted_zone_id := some "Z0123456789"
        hosted_zone_name := some "example.com"
        env_name := none }
      = SynthOutcome.aborted "NameError: name Annotations is not defined" := by
  rfl

/-- C2: in every synthesized stack, no ingress rule with the unrestricted
IPv4 range as source targets the database security group, and the database
security group receives exactly one ingress rule, whose source is the
application security group (port 5432). -/
theorem c2_data_tier_never_internet_facing :
    ∀ hosted_zone_name hosted_zone_id env_name : String,
    (((helloWorldStack hosted_zone_name hosted_zone_id env_name).ingress_rules.filter
        (fun r => r.target == SgRef.db)).map IngressRule.source = [Peer.sgRef SgRef.app]) ∧
    ((helloWorldStack hosted_zone_name hosted_zone_id env_name).ingress_rules.all
        (fun r => !(r.source == Peer.anyIpv4 && r.target == SgRef.db)) = true) := by
  intro hosted_zone_name hosted_zone_id env_name
  exact ⟨rfl, rfl⟩

/-- C3: in every synthesized stack the VPC has one NAT gateway per
availability zone and one subnet configuration per tier (public, app,
data), each yielding one subnet per availability zone; with the AZ count
fixed at 3 this gives 3 gateways and 9 subnets. -/
theorem c3_network_shape :
    ∀ hosted_zone_name hosted_zone_id env_name : String,
    ((helloWorldStack hosted_zone_name hosted_zone_id env_name).vpc.nat_gateways
      = (helloWorldStack hosted_zone_name hosted_zone_id env_name).vpc.max_azs) ∧
    ((helloWorldStack hosted_zone_name hosted_zone_id env_name).vpc.tierCount SubnetType.PUBLIC = 1) ∧
    ((helloWorldStack hosted_zone_name hosted_zone_id env_name).vpc.tierCount SubnetType.PRIVATE_WITH_EGRESS = 1) ∧
    ((helloWorldStack hosted_zone_name hosted_zone_id env_name).vpc.tierCount SubnetType.PRIVATE_ISOLATED = 1) ∧
    ((helloWorldStack hosted_zone_name hosted_zone_id env_name).vpc.max_azs = 3) ∧
    ((helloWorldStack hosted_zone_name hosted_zone_id env_name).vpc.nat_gateways = 3) ∧
    ((helloWorldStack hosted_zone_name hosted_zone_id env_name).vpc.subnetCount = 9) := by
  intro hosted_zone_name hosted_zone_id env_name
  exact ⟨rfl, rfl, rfl, rfl, rfl, rfl, rfl⟩

/-- C4: the claim says the desired replica count of the compute service
equals the availability-zone count (3, one task per AZ). The source sets
`desired_count=9` next to a comment saying one task per AZ, while the VPC
has 3 availability zones: the code contradicts its own comment. -/
theorem c4_desired_count_is_nine_not_az_count :
    (helloWorldStack "example.com" "Z0123456789" "dev").desired_count = 9 ∧
    (helloWorldStack "example.com" "Z0123456789" "dev").vpc.max_azs = 3 := by
  exact ⟨rfl, rfl⟩

/-- C5: in every synthesized stack the firewall rule priorities are
pairwise distinct and strictly increasing in list order, the rate-limit
rule has priority 3, and every rule priority is at most 3, so the
rate-limit rule carries the highest priority number (evaluated last). -/
theorem c5_waf_rule_priorities :
    ∀ hosted_zone_name hosted_zone_id env_name : String,
    (List.Pairwise (fun a b => a < b)
      ((helloWorldStack hosted_zone_name hosted_zone_id env_name).waf_rules.map WafRule.priority)) ∧
    (((helloWorldStack hosted_zone_name hosted_zone_id env_name).waf_rules.filter
        (fun r => r.is_rate_limit)).map WafRule.priority = [3]) ∧
    ((helloWorldStack hosted_zone_name hosted_zone_id env_name).waf_rules.all
        (fun r => r.priority ≤ 3) = true) := by
  intro hosted_zone_name hosted_zone_id env_name
  refine ⟨?_, rfl, rfl⟩
  have h : (helloWorldStack hosted_zone_name hosted_zone_id env_name).waf_rules.map
      WafRule.priority = [1, 2, 3] := rfl
  rw [h]
  decide

/-- C7 counterexample: the claim says deletion behavior is determined by an
explicit per-environment policy flag, with some pair of environments
getting different removal/retention settings. The stack takes no such
flag, and two different environments (dev, prod) get identical settings:
removal policy DESTROY with deletion protection disabled. -/
theorem c7_deletion_policy_same_for_dev_and_prod :
    ((helloWorldStack "example.com" "Z0123456789" "dev").aurora_removal_policy
      = (helloWorldStack "example.com" "Z0123456789" "prod").aurora_removal_policy) ∧
    ((helloWorldStack "example.com" "Z0123456789" "dev").aurora_deletion_protection
      = (helloWorldStack "example.com" "Z0123456789" "prod").aurora_deletion_protection) ∧
    ((helloWorldStack "example.com" "Z0123456789" "dev").aurora_removal_policy
      = RemovalPolicy.DESTROY) := by
  exact ⟨rfl, rfl, rfl⟩

/-- C7 amended: the database cluster deletion behavior is not
parameterized: every synthesis, for every environment, hardcodes removal
policy DESTROY and disables deletion protection on the data tier. -/
theorem c7_deletion_policy_hardcoded :
    ∀ hosted_zone_name hosted_zone_id env_name : String,
    ((helloWorldStack hosted_zone_name hosted_zone_id env_name).aurora_removal_policy
      = RemovalPolicy.DESTROY) ∧
    ((helloWorldStack hosted_zone_name hosted_zone_id env_name).aurora_deletion_protection
      = false) := by
  intro hosted_zone_name hosted_zone_id env_name
  exact ⟨rfl, rfl⟩

/-- C9: in every synthesized stack the database cluster has storage
encryption enabled with the stack's dedicated KMS key, and its credentials
are a named secret reference (the per-environment secret name), never a
literal username/password value. -/
theorem c9_encryption_and_secret_reference :
    ∀ hosted_zone_name hosted_zone_id env_name : String,
    ((helloWorldStack hosted_zone_name hosted_zone_id env_name).aurora_storage_encrypted = true) ∧
    ((helloWorldStack hosted_zone_name hosted_zone_id env_name).aurora_storage_encryption_key
      = some (helloWorldStack hosted_zone_name hosted_zone_id env_name).encryption_key) ∧
    ((helloWorldStack hosted_zone_name hosted_zone_id env_name).aurora_credentials
      = Credentials.fromSecret (env_name ++ "-aurora-credentials")) := by
  intro hosted_zone_name hosted_zone_id env_name
  exact ⟨rfl, rfl, rfl⟩

/-- A world in which every external call of the health service succeeds
and the `flaskdb` database already exists. -/
def pgWorldOk : PgWorld :=
  { get_secret_value := Except.ok ("u", "p")
    connect_postgres := Except.ok ()
    flaskdb_row := Except.ok true
    create_flaskdb := Except.ok ()
    connect_flaskdb := Except.ok ()
    create_user_table := Except.ok () }

/-- A world in which the Secrets Manager fetch itself raises. -/
def pgWorldSecretError : PgWorld :=
  { get_secret_value := Except.error "AccessDeniedException"
    connect_postgres := Except.ok ()
    flaskdb_row := Except.ok true
    create_flaskdb := Except.ok ()
    connect_flaskdb := Except.ok ()
    create_user_table := Except.ok () }

/-- A world in which credentials resolve but the first connection inside
the `try` block raises. -/
def pgWorldTryError : PgWorld :=
  { get_secret_value := Except.ok ("u", "p")
    connect_postgres := Except.error "connection refused"
    flaskdb_row := Except.ok true
    create_flaskdb := Except.ok ()
    connect_flaskdb := Except.ok ()
    create_user_table := Except.ok () }

/-- C6: the readiness endpoint returns 200 healthy/connected when the
database check succeeds; 200 initializing when the check fails with a
message containing `does not exist` and the on-demand creation returns
`True`; and 503 with the error message in the body in every other failure
case (message without that substring, creation returning `False`, or
creation raising). -/
theorem c6_health_check_contract (db_check : Except String Unit) (w : PgWorld) :
    (db_check = Except.ok () →
      health_check db_check w
        = { status := 200, body := [("status", "healthy"), ("database", "connected")] }) ∧
    (∀ msg, db_check = Except.error msg →
      pyIn "does not exist" msg = true →
      create_database_if_not_exists w = Except.ok true →
      health_check db_check w
        = { status := 200
            body := [("status", "initializing"), ("message", "Database created, restarting connection")] }) ∧
    (∀ msg, db_check = Except.error msg →
      (pyIn "does not exist" msg = false ∨ create_database_if_not_exists w ≠ Except.ok true) →
      health_check db_check w
        = { status := 503, body := [("status", "unhealthy"), ("error", msg)] }) := by
  refine ⟨?_, ?_, ?_⟩
  · intro h
    subst h
    rfl
  · intro msg h hin hc
    subst h
    simp [health_check, hin, hc]
  · intro msg h hcase
    subst h
    rcases hcase with hin | hne
    · simp [health_check, hin]
    · cases hin : pyIn "does not exist" msg with
      | true =>
        cases hb : create_database_if_not_exists w with
        | error e => simp [health_check, hin, hb]
        | ok b =>
          cases b with
          | false => simp [health_check, hin, hb]
          | true => exact absurd hb hne
      | false => simp [health_check, hin]

/-- C6 witness: the three branches of the readiness contract evaluated in
a concrete world. -/
theorem c6_health_check_contract_witness :
    (health_check (Except.ok ()) pgWorldOk
      = { status := 200, body := [("status", "healthy"), ("database", "connected")] }) ∧
    (health_check (Except.error "FATAL: database flaskdb does not exist") pgWorldOk
      = { status := 200
          body := [("status", "initializing"), ("message", "Database created, restarting connection")] }) ∧
    (health_check (Except.error "connection timeout") pgWorldOk
      = { status := 503, body := [("status", "unhealthy"), ("error", "connection timeout")] }) :=
  ⟨(c6_health_check_contract (Except.ok ()) pgWorldOk).1 rfl,
   (c6_health_check_contract (Except.error "FATAL: database flaskdb does not exist") pgWorldOk).2.1
     "FATAL: database flaskdb does not exist" rfl (by decide) rfl,
   (c6_health_check_contract (Except.error "connection timeout") pgWorldOk).2.2
     "connection timeout" rfl (Or.inl (by decide))⟩

/-- C8: a synthesis invocation with the hosted-zone identifier absent (or
empty) aborts with an error message naming `hosted_zone_id`, and one with
the identifier present but the hosted-zone name absent aborts with an
error message naming `hosted_zone_name`; the aborted outcome carries no
stack, so no resource is instantiated. -/
theorem c8_missing_hosted_zone_aborts (ctx : Context) :
    (pyFalsy ctx.hosted_zone_id = true →
      ∃ msg, helloWorldApp ctx = SynthOutcome.aborted msg ∧
        pyIn "hosted_zone_id" msg = true) ∧
    (pyFalsy ctx.hosted_zone_id = false → pyFalsy ctx.hosted_zone_name = true →
      ∃ msg, helloWorldApp ctx = SynthOutcome.aborted msg ∧
        pyIn "hosted_zone_name" msg = true) := by
  constructor
  · intro h
    refine ⟨"ValueError: Missing required context variable: hosted_zone_id. Please provide it in cdk.json or via --context.", ?_, by decide⟩
    simp [helloWorldApp, h]
  · intro h1 h2
    refine ⟨"ValueError: Missing required context variable: hosted_zone_name. Please provide it in cdk.json or via --context.", ?_, by decide⟩
    simp [helloWorldApp, h1, h2]

/-- C8 witness: the two abort branches evaluated at concrete contexts. -/
theorem c8_missing_hosted_zone_aborts_witness :
    (∃ msg, helloWorldApp
        { hosted_zone_id := none, hosted_zone_name := some "example.com", env_name := some "dev" }
        = SynthOutcome.aborted msg ∧ pyIn "hosted_zone_id" msg = true) ∧
    (∃ msg, helloWorldApp
        { hosted_zone_id := some "Z0123456789", hosted_zone_name := none, env_name := some "dev" }
        = SynthOutcome.aborted msg ∧ pyIn "hosted_zone_name" msg = true) :=
  ⟨(c8_missing_hosted_zone_aborts
      { hosted_zone_id := none, hosted_zone_name := some "example.com", env_name := some "dev" }).1
      rfl,
   (c8_missing_hosted_zone_aborts
      { hosted_zone_id := some "Z0123456789", hosted_zone_name := none, env_name := some "dev" }).2
      rfl rfl⟩

/-- C10: an exception from the credential fetch (called before the `try`
block) propagates out of `create_database_if_not_exists` unchanged; once
credentials are obtained, an exception raised anywhere inside the `try`
block is caught and the function returns `False` (never propagating the
error), and a successful `try` body returns its value (`True`). -/
theorem c10_credential_errors_propagate (w : PgWorld) :
    (∀ e, w.get_secret_value = Except.error e →
      create_database_if_not_exists w = Except.error e) ∧
    (∀ c e, w.get_secret_value = Except.ok c →
      createDatabaseTryBody w = Except.error e →
      create_database_if_not_exists w = Except.ok false) ∧
    (∀ c b, w.get_secret_value = Except.ok c →
      createDatabaseTryBody w = Except.ok b →
      create_database_if_not_exists w = Except.ok b) := by
  refine ⟨?_, ?_, ?_⟩
  · intro e he
    simp [create_database_if_not_exists, get_db_credentials, he]
  · intro c e hc hb
    simp [create_database_if_not_exists, get_db_credentials, hc, hb]
  · intro c b hc hb
    simp [create_database_if_not_exists, get_db_credentials, hc, hb]

/-- C10 witness: a failing credential fetch propagates its error; a
failing connection inside the `try` block yields the return value `False`;
an error-free run yields `True`. -/
theorem c10_credential_errors_propagate_witness :
    (create_database_if_not_exists pgWorldSecretError
      = Except.error "AccessDeniedException") ∧
    (create_database_if_not_exists pgWorldTryError = Except.ok false) ∧
    (create_database_if_not_exists pgWorldOk = Except.ok true) :=
  ⟨(c10_credential_errors_propagate pgWorldSecretError).1 "AccessDeniedException" rfl,
   (c10_credential_errors_propagate pgWorldTryError).2.1 ("u", "p") "connection refused" rfl rfl,
   (c10_credential_errors_propagate pgWorldOk).2.2 ("u", "p") true rfl rfl⟩

end Ttwa
